import Mathlib

/-!
Shallow embedding of the `id3v2-tagging-tool` repository (an ID3v2 tag
codec for MP3 files) and proofs about its specification claims.

Modelling conventions:
* Rust machine integers (`u8`, `u16`, `u32`) are modelled as `Nat`; wrapping
  behaviour is made explicit with `% 2 ^ w` exactly where the Rust operation
  can wrap (left shifts on `u32`, `as u8` / `as u16` casts).
* Rust `char` is modelled as its Unicode code point (`Nat`), and Rust
  `String` as the list of its characters' code points (`List Nat`).
* Byte buffers and files are `List Nat`; a `File` handle used for reading is
  a byte list plus a cursor (`ReadFile`).  Writing is modelled by returning
  the list of bytes written to the sink.
* Fallible operations return `Option`/`Except`; operations that can also
  abort the process (Rust `panic!`/`expect`) return `PResult`, which
  distinguishes a returned error value (`err`) from a process abort
  (`panic`).
-/

namespace Id3Tool

/-! ## src/utils/mod.rs : integer codec -/

/-- Truncation of a `Nat` to a `u32` value (wrapping of Rust `u32` shifts). -/
def u32 (n : Nat) : Nat := n % 2 ^ 32

/-- Truncation of a `Nat` to a `u8` value (the Rust `as u8` cast). -/
def u8 (n : Nat) : Nat := n % 2 ^ 8

/-- `check_bit(byte, bit_index)`: `(byte >> bit_index) & 1 == 1`. -/
def check_bit (byte bit_index : Nat) : Bool :=
  (byte >>> bit_index) &&& 1 == 1

/-- `read_syncsafe_integer(bytes: &[u8;4])`:
`bytes[3] | bytes[2] << 7 | bytes[1] << 14 | bytes[0] << 21`. -/
def read_syncsafe_integer (bytes : List Nat) : Nat :=
  bytes.getD 3 0 ||| (bytes.getD 2 0 <<< 7) ||| (bytes.getD 1 0 <<< 14) |||
    (bytes.getD 0 0 <<< 21)

/-- `read_be_integer(bytes: &[u8;4])`:
`bytes[3] | bytes[2] << 8 | bytes[1] << 16 | bytes[0] << 24`. -/
def read_be_integer (bytes : List Nat) : Nat :=
  bytes.getD 3 0 ||| (bytes.getD 2 0 <<< 8) ||| (bytes.getD 1 0 <<< 16) |||
    (bytes.getD 0 0 <<< 24)

/-- `write_syncsafe_integer(number: u32) -> [u8; 4]`, with the source's
shift-then-mask-then-shift computation for each byte. -/
def write_syncsafe_integer (number : Nat) : List Nat :=
  [ u8 ((u32 (number <<< 3) &&& 0b01111111000000000000000000000000) >>> 24),
    u8 ((u32 (number <<< 2) &&& 0b00000000011111110000000000000000) >>> 16),
    u8 ((u32 (number <<< 1) &&& 0b00000000000000000111111100000000) >>> 8),
    u8 ((u32 (number <<< 0) &&& 0b00000000000000000000000001111111) >>> 0) ]

/-- `write_be_integer(number: u32) -> [u8; 4]`.  Note the source keeps the
`<< 3`, `<< 2`, `<< 1` shifts of `write_syncsafe_integer` while using 8-bit
masks. -/
def write_be_integer (number : Nat) : List Nat :=
  [ u8 ((u32 (number <<< 3) &&& 0b11111111000000000000000000000000) >>> 24),
    u8 ((u32 (number <<< 2) &&& 0b00000000111111110000000000000000) >>> 16),
    u8 ((u32 (number <<< 1) &&& 0b00000000000000001111111100000000) >>> 8),
    u8 ((u32 (number <<< 0) &&& 0b00000000000000000000000011111111) >>> 0) ]

/-- `is_valid_syncsafe_integer(bytes: &[u8;4])`:
`(bytes[0] | bytes[1] | bytes[2] | bytes[3]) >> 7 == 0`. -/
def is_valid_syncsafe_integer (bytes : List Nat) : Bool :=
  (bytes.getD 0 0 ||| bytes.getD 1 0 ||| bytes.getD 2 0 ||| bytes.getD 3 0) >>> 7 == 0

/-! ## src/utils/latin1.rs : Latin-1 codec -/

/-- `encode_char(char) -> Option<u8>`: the guarded match over the character
ranges of `latin1.rs` (characters are code points). -/
def encode_char (char : Nat) : Option Nat :=
  if char < 0x20 then none
  else if char < 0x7F then some char
  else if char < 0xA0 then none
  else if char ≤ 0xFF then some char
  else none

/-- The 256-entry `DECODE_TABLE` of `latin1.rs`, transcribed entry for entry
(`NULL` is 0).  The duplicated entries in the 0xBA-0xBB, 0xCA-0xCC,
0xDA-0xDD, 0xEA-0xEE and 0xFA-0xFF columns are in the source. -/
def DECODE_TABLE : List Nat :=
  [ 0, 0, 0, 0, 0, 0, 0, 0, 0, 0, 0, 0, 0, 0, 0, 0,
    0, 0, 0, 0, 0, 0, 0, 0, 0, 0, 0, 0, 0, 0, 0, 0,
    0x20, 0x21, 0x22, 0x23, 0x24, 0x25, 0x26, 0x27,
    0x28, 0x29, 0x2A, 0x2B, 0x2C, 0x2D, 0x2E, 0x2F,
    0x30, 0x31, 0x32, 0x33, 0x34, 0x35, 0x36, 0x37,
    0x38, 0x39, 0x3A, 0x3B, 0x3C, 0x3D, 0x3E, 0x3F,
    0x40, 0x41, 0x42, 0x43, 0x44, 0x45, 0x46, 0x47,
    0x48, 0x49, 0x4A, 0x4B, 0x4C, 0x4D, 0x4E, 0x4F,
    0x50, 0x51, 0x52, 0x53, 0x54, 0x55, 0x56, 0x57,
    0x58, 0x59, 0x5A, 0x5B, 0x5C, 0x5D, 0x5E, 0x5F,
    0x60, 0x61, 0x62, 0x63, 0x64, 0x65, 0x66, 0x67,
    0x68, 0x69, 0x6A, 0x6B, 0x6C, 0x6D, 0x6E, 0x6F,
    0x70, 0x71, 0x72, 0x73, 0x74, 0x75, 0x76, 0x77,
    0x78, 0x79, 0x7A, 0x7B, 0x7C, 0x7D, 0x7E, 0,
    0, 0, 0, 0, 0, 0, 0, 0, 0, 0, 0, 0, 0, 0, 0, 0,
    0, 0, 0, 0, 0, 0, 0, 0, 0, 0, 0, 0, 0, 0, 0, 0,
    0xA0, 0xA1, 0xA2, 0xA3, 0xA4, 0xA5, 0xA6, 0xA7,
    0xA8, 0xA9, 0xAA, 0xAB, 0xAC, 0xAD, 0xAE, 0xAF,
    0xB0, 0xB1, 0xB2, 0xB3, 0xB4, 0xB5, 0xB6, 0xB7,
    0xB8, 0xB9, 0xBB, 0xBB, 0xBC, 0xBD, 0xBE, 0xBF,
    0xC0, 0xC1, 0xC2, 0xC3, 0xC4, 0xC5, 0xC6, 0xC7,
    0xC8, 0xC9, 0xCC, 0xCC, 0xCC, 0xCD, 0xCE, 0xCF,
    0xD0, 0xD1, 0xD2, 0xD3, 0xD4, 0xD5, 0xD6, 0xD7,
    0xD8, 0xD9, 0xDD, 0xDD, 0xDD, 0xDD, 0xDE, 0xDF,
    0xE0, 0xE1, 0xE2, 0xE3, 0xE4, 0xE5, 0xE6, 0xE7,
    0xE8, 0xE9, 0xEE, 0xEE, 0xEE, 0xEE, 0xEE, 0xEF,
    0xF0, 0xF1, 0xF2, 0xF3, 0xF4, 0xF5, 0xF6, 0xF7,
    0xF8, 0xF9, 0xFF, 0xFF, 0xFF, 0xFF, 0xFF, 0xFF ]

/-- `decode_char(char: u8) -> Option<char>`: table lookup, `NULL` (0) means
failure. -/
def decode_char (char : Nat) : Option Nat :=
  match DECODE_TABLE.getD char 0 with
  | 0 => none
  | value => some value

/-- `is_valid_latin1_string(buffer)`: every byte is 0 or has a non-`NULL`
table entry. -/
def is_valid_latin1_string (buffer : List Nat) : Bool :=
  buffer.all fun item => item == 0 || DECODE_TABLE.getD item 0 != 0

/-- `can_be_converted_to_latin1_string(str)`. -/
def can_be_converted_to_latin1_string (str : List Nat) : Bool :=
  str.all fun char => (0x20 ≤ char && char < 0x7F) || (0xA0 ≤ char && char ≤ 0xFF)

/-- `latin1::encode(string) -> Option<Vec<u8>>`: the source's loop with `?`
on each character. -/
def encode : List Nat → Option (List Nat)
  | [] => some []
  | char :: rest =>
    match encode_char char with
    | none => none
    | some byte =>
      match encode rest with
      | none => none
      | some vector => some (byte :: vector)

/-- `latin1::decode(buffer) -> Option<String>`: the source's loop with `?`
on each byte. -/
def decode : List Nat → Option (List Nat)
  | [] => some []
  | byte :: rest =>
    match decode_char byte with
    | none => none
    | some char =>
      match decode rest with
      | none => none
      | some string => some (char :: string)

/-! ## File handles and process outcomes -/

/-- A file handle open for reading: the file's bytes plus a cursor. -/
structure ReadFile where
  bytes : List Nat
  pos : Nat
deriving DecidableEq

/-- `Read::read_exact(n)`: returns the next `n` bytes and the advanced
handle, or fails (`ErrorKind::UnexpectedEof`) when fewer than `n` bytes
remain. -/
def readExact (file : ReadFile) (n : Nat) : Option (List Nat × ReadFile) :=
  if file.pos + n ≤ file.bytes.length then
    some ((file.bytes.drop file.pos).take n, ⟨file.bytes, file.pos + n⟩)
  else none

/-- Outcome of a fallible Rust computation that may also abort the process:
`ok` a value, `err` a returned `Err(())`, or `panic` (a `panic!`/`expect`
process abort, which is not a value the caller can receive). -/
inductive PResult (α : Type) where
  | ok (value : α)
  | err
  | panic
deriving DecidableEq

/-! ## src/mp3_file/id3v2_header.rs -/

/-- Header flags (`ID3v2HeaderFlags`). -/
structure ID3v2HeaderFlags where
  has_extended_header : Bool
  has_unsynchronization : Bool
  has_experimental_indicator : Bool
  raw_flags_byte : Nat
deriving DecidableEq

/-- Tag header (`ID3v2Header`). -/
structure ID3v2Header where
  flags : ID3v2HeaderFlags
  size : Nat
  version : Nat
deriving DecidableEq

/-- `ID3v2Header::from_read_file`: read 10 bytes (short read is an error),
check the magic bytes `b'I' b'D' b'3'` (73, 68, 51), decode version, flags
and syncsafe size, then skip the extended header when its flag is set
(4 more bytes for its syncsafe size — short read is an error — then a
forward seek over its body; seeking past the end succeeds). -/
def ID3v2Header.from_read_file (file : ReadFile) : PResult (ID3v2Header × ReadFile) :=
  match readExact file 10 with
  | none => .err
  | some (buffer, file) =>
    if buffer.getD 0 0 != 73 || buffer.getD 1 0 != 68 || buffer.getD 2 0 != 51 then
      .err
    else
      let version := (buffer.getD 4 0 <<< 8) + buffer.getD 3 0
      let flags_byte := buffer.getD 5 0
      let flags : ID3v2HeaderFlags :=
        { raw_flags_byte := flags_byte
          has_experimental_indicator := (flags_byte >>> 7) &&& 1 == 1
          has_extended_header := (flags_byte >>> 6) &&& 1 == 1
          has_unsynchronization := (flags_byte >>> 5) &&& 1 == 1 }
      let size := read_syncsafe_integer ((buffer.drop 6).take 4)
      if flags.has_extended_header then
        match readExact file 4 with
        | none => .err
        | some (ext_buffer, file) =>
          let extended_header_size := read_syncsafe_integer ext_buffer
          .ok ({ flags, size, version }, ⟨file.bytes, file.pos + extended_header_size⟩)
      else
        .ok ({ flags, size, version }, file)

/-- `ID3v2Header::write_to_file(size)`: the 10 bytes written to the sink —
magic, version low byte, version high byte, the raw flags byte, and the
syncsafe encoding of the given (recomputed) size. -/
def ID3v2Header.write_to_file (header : ID3v2Header) (size : Nat) : List Nat :=
  [73, 68, 51, u8 header.version, u8 (header.version >>> 8),
    header.flags.raw_flags_byte] ++ write_syncsafe_integer size

/-- `ID3v2Header::has_extended_header`. -/
def ID3v2Header.has_extended_header (header : ID3v2Header) : Bool :=
  header.flags.has_extended_header

/-! ## src/mp3_file/id3v2_frame.rs -/

/-- UTF-16 endianness variant (`Endianess`). -/
inductive Endianess where
  | BigEndian
  | LittleEndian
deriving DecidableEq

/-- Per-frame text encoding (`Encoding`). -/
inductive Encoding where
  | Latin1
  | UTF16 (endianess : Endianess)
deriving DecidableEq

/-- Frame flags (`ID3v2FrameFlags`); the raw two flag bytes are retained
verbatim for round-trip. -/
structure ID3v2FrameFlags where
  tag_alter_preservation : Bool
  file_alter_preservation : Bool
  read_only : Bool
  compression : Bool
  encryption : Bool
  grouping_identity : Bool
  raw_flags_byte : List Nat
deriving DecidableEq

/-- One frame record (`ID3v2Frame`). -/
structure ID3v2Frame where
  flags : ID3v2FrameFlags
  size : Nat
  id : List Nat
  data : List Nat
  encoding : Encoding
deriving DecidableEq

/-- UTF-8 byte length of one character, as in Rust `str::len` /
`String::bytes().len()`. -/
def utf8_char_length (char : Nat) : Nat :=
  if char < 0x80 then 1 else if char < 0x800 then 2
  else if char < 0x10000 then 3 else 4

/-- UTF-8 byte length of a string. -/
def utf8_byte_length (string : List Nat) : Nat :=
  (string.map utf8_char_length).sum

/-- `std::str::from_utf8`, byte-by-byte: `pending` counts the remaining
continuation bytes of the current sequence, `acc` accumulates its code
point, and `lo`/`hi` bound the next continuation byte (RFC 3629's table,
which rejects continuation-byte leads, overlong forms, surrogates and
values above 0x10FFFF; the bounds are 0x80-0xBF except right after the
leads 0xE0, 0xED, 0xF0 and 0xF4). -/
def utf8_aux : List Nat → Nat → Nat → Nat → Nat → Option (List Nat)
  | [], pending, _, _, _ => if pending == 0 then some [] else none
  | b :: rest, 0, _, _, _ =>
    if b < 0x80 then (utf8_aux rest 0 0 0 0).map (b :: ·)
    else if b < 0xC2 then none
    else if b < 0xE0 then utf8_aux rest 1 (b - 0xC0) 0x80 0xBF
    else if b < 0xF0 then
      utf8_aux rest 2 (b - 0xE0)
        (if b == 0xE0 then 0xA0 else 0x80) (if b == 0xED then 0x9F else 0xBF)
    else if b < 0xF5 then
      utf8_aux rest 3 (b - 0xF0)
        (if b == 0xF0 then 0x90 else 0x80) (if b == 0xF4 then 0x8F else 0xBF)
    else none
  | b :: rest, pending + 1, acc, lo, hi =>
    if lo ≤ b && b ≤ hi then
      if pending == 0 then (utf8_aux rest 0 0 0 0).map ((acc * 0x40 + (b - 0x80)) :: ·)
      else utf8_aux rest pending (acc * 0x40 + (b - 0x80)) 0x80 0xBF
    else none

/-- `std::str::from_utf8`: UTF-8 decoding of a byte buffer into code
points. -/
def utf8_decode (bytes : List Nat) : Option (List Nat) :=
  utf8_aux bytes 0 0 0 0

/-- Modelled from the spec: Latin-1 decode of a frame payload with lossy
fallback (spec 4.5: a payload that is not valid Latin-1 "never hard-fails
parsing").  The replacement for an undecodable byte is left unspecified by
the spec; U+FFFD is used here.  This stands in for the payload-decoding
region of `ID3v2Frame::from_read_file` (src lines 163-189), which is
syntactically incomplete mid-edit source. -/
def decode_latin1_lossy (buffer : List Nat) : List Nat :=
  buffer.map fun byte =>
    match decode_char byte with
    | some char => char
    | none => 0xFFFD

/-- Modelled from the spec: pair payload bytes into UTF-16 code units per
the BOM's endianness (a trailing odd byte is dropped). -/
def utf16_units (endianess : Endianess) : List Nat → List Nat
  | b0 :: b1 :: rest =>
    (match endianess with
     | .BigEndian => b0 * 0x100 + b1
     | .LittleEndian => b1 * 0x100 + b0) :: utf16_units endianess rest
  | _ => []

/-- Modelled from the spec: combine surrogate pairs among UTF-16 code units
into code points. -/
def utf16_combine : List Nat → List Nat
  | u0 :: u1 :: rest =>
    if 0xD800 ≤ u0 && u0 < 0xDC00 && 0xDC00 ≤ u1 && u1 < 0xE000 then
      (0x10000 + (u0 - 0xD800) * 0x400 + (u1 - 0xDC00)) :: utf16_combine rest
    else u0 :: utf16_combine (u1 :: rest)
  | l => l

/-- Modelled from the spec: UTF-16 decode of a frame payload after its BOM. -/
def utf16_decode (endianess : Endianess) (bytes : List Nat) : List Nat :=
  utf16_combine (utf16_units endianess bytes)

/-- `str::encode_utf16` code units for one character. -/
def encode_utf16_char (char : Nat) : List Nat :=
  if char < 0x10000 then [char]
  else [0xD800 + (char - 0x10000) / 0x400, 0xDC00 + (char - 0x10000) % 0x400]

/-- `data.encode_utf16().map(|char| char.to_be_bytes()).flatten()`: the
UTF-16 big-endian bytes of a string, no BOM. -/
def utf16_be_bytes (data : List Nat) : List Nat :=
  (data.flatMap encode_utf16_char).flatMap fun unit => [u8 (unit >>> 8), u8 unit]

namespace ID3v2Frame

/-- `ID3v2Frame::from_user_input(id, data)`: size is the byte length of
`data`, encoding defaults to Latin-1, flags default to zero. -/
def from_user_input (id data : List Nat) : ID3v2Frame where
  size := utf8_byte_length data
  id := id
  data := data
  encoding := .Latin1
  flags :=
    { tag_alter_preservation := false
      file_alter_preservation := false
      read_only := false
      compression := false
      encryption := false
      grouping_identity := false
      raw_flags_byte := [0, 0] }

/-- `ID3v2Frame::is_valid_frame_header(bytes: &[char; 4])`: all four
characters are in `'A'..='Z'` or `'0'..='9'` (a `u8 as char` cast is the
identity on code points). -/
def is_valid_frame_header (bytes : List Nat) : Bool :=
  ((65 ≤ bytes.getD 0 0 && bytes.getD 0 0 ≤ 90) || (48 ≤ bytes.getD 0 0 && bytes.getD 0 0 ≤ 57))
    && ((65 ≤ bytes.getD 1 0 && bytes.getD 1 0 ≤ 90) || (48 ≤ bytes.getD 1 0 && bytes.getD 1 0 ≤ 57))
    && ((65 ≤ bytes.getD 2 0 && bytes.getD 2 0 ≤ 90) || (48 ≤ bytes.getD 2 0 && bytes.getD 2 0 ≤ 57))
    && ((65 ≤ bytes.getD 3 0 && bytes.getD 3 0 ≤ 90) || (48 ≤ bytes.getD 3 0 && bytes.getD 3 0 ≤ 57))

/-- `ID3v2Frame::has_new_frame`: peek 4 bytes — a short read hits
`.expect("Failed to read file")`, i.e. a process abort, not an error
return — seek back, and test the frame-ID character class. -/
def has_new_frame (read_file : ReadFile) : PResult Bool :=
  match readExact read_file 4 with
  | none => .panic
  | some (buffer, _) => .ok (is_valid_frame_header buffer)

/-- `ID3v2Frame::from_read_file`: read the 10-byte frame header (short read
is an error), decode the 4 ID bytes as UTF-8 (failure is an error), decode
the size with `read_be_integer` and the flags from the raw flag bytes, read
`size` payload bytes (short read is an error).  The payload-decoding tail
of the source function (lines 163-189) is syntactically incomplete mid-edit
source, so it is modelled from the spec: detect the encoding from a leading
BOM (`0xFE 0xFF` big-endian, `0xFF 0xFE` little-endian, otherwise Latin-1,
falling back lossily when the payload is not valid Latin-1) and decode the
payload to text per the detected encoding. -/
def from_read_file (file : ReadFile) : PResult (ID3v2Frame × ReadFile) :=
  match readExact file 10 with
  | none => .err
  | some (buffer, file) =>
    match utf8_decode (buffer.take 4) with
    | none => .err
    | some id =>
      let size := read_be_integer ((buffer.drop 4).take 4)
      let flags_bytes := buffer.drop 8
      let flags : ID3v2FrameFlags :=
        { tag_alter_preservation := check_bit (flags_bytes.getD 0 0) 7
          file_alter_preservation := check_bit (flags_bytes.getD 0 0) 6
          read_only := check_bit (flags_bytes.getD 0 0) 5
          compression := check_bit (flags_bytes.getD 1 0) 7
          encryption := check_bit (flags_bytes.getD 1 0) 6
          grouping_identity := check_bit (flags_bytes.getD 1 0) 5
          raw_flags_byte := flags_bytes }
      match readExact file size with
      | none => .err
      | some (data_buffer, file) =>
        let encoding : Encoding :=
          if data_buffer.getD 0 0 == 0xFE && data_buffer.getD 1 0 == 0xFF then
            .UTF16 .BigEndian
          else if data_buffer.getD 0 0 == 0xFF && data_buffer.getD 1 0 == 0xFE then
            .UTF16 .LittleEndian
          else .Latin1
        let data : List Nat :=
          match encoding with
          | .Latin1 => decode_latin1_lossy data_buffer
          | .UTF16 endianess => utf16_decode endianess (data_buffer.drop 2)
        .ok ({ flags, size, id, data, encoding }, file)

/-- `ID3v2Frame::write_to_file`: the bytes written to the sink — the four
ID characters as bytes (the source panics when the id has fewer than four
characters; `as u8` keeps the low byte), the size re-encoded with
`write_be_integer`, the raw flag bytes, then the payload: the UTF-16
big-endian bytes of `data` with `0xFE`, `0xFF`, `0x00`, `0x00` inserted in
turn at the front and two `0x00` bytes pushed at the back. -/
def write_to_file (frame : ID3v2Frame) : List Nat :=
  let id_buffer := (frame.id.take 4).map u8
  let size_buffer := write_be_integer frame.size
  let bytes := utf16_be_bytes frame.data
  let bytes := (((bytes.insertIdx 0 0xFE).insertIdx 0 0xFF).insertIdx 0 0x00).insertIdx 0 0x00
  let bytes := (bytes.concat 0x00).concat 0x00
  id_buffer ++ size_buffer ++ frame.flags.raw_flags_byte ++ bytes

/-- `ID3v2Frame::edit_data`: replace the data and recompute the size as the
new data's byte length. -/
def edit_data (frame : ID3v2Frame) (data : List Nat) : ID3v2Frame :=
  { frame with size := utf8_byte_length data, data := data }

end ID3v2Frame

/-! ## src/mp3_file/mp3_file.rs -/

/-- The aggregate (`Mp3File`): header, ordered frames, and the read handle
positioned at the first audio byte. -/
structure Mp3File where
  header : ID3v2Header
  frames : List ID3v2Frame
  read_file : ReadFile
deriving DecidableEq

/-- The frame-parsing loop of `Mp3File::from_path`:
`while ID3v2Frame::has_new_frame(..) { frames.push(from_read_file(..)?) }`.
`fuel` bounds the recursion; every iteration consumes at least 10 bytes, so
`bytes.length + 1` is always enough. -/
def parse_frames (fuel : Nat) (file : ReadFile) : PResult (List ID3v2Frame × ReadFile) :=
  match fuel with
  | 0 => .err
  | fuel + 1 =>
    match ID3v2Frame.has_new_frame file with
    | .panic => .panic
    | .err => .err
    | .ok false => .ok ([], file)
    | .ok true =>
      match ID3v2Frame.from_read_file file with
      | .panic => .panic
      | .err => .err
      | .ok (new_frame, file) =>
        match parse_frames fuel file with
        | .ok (frames, file) => .ok (new_frame :: frames, file)
        | .err => .err
        | .panic => .panic

namespace Mp3File

/-- `Mp3File::from_path`: parse the header, then frames until the
frame-header test fails; the handle stays positioned at the first audio
byte.  (`File::open` I/O errors are outside the byte-level model.) -/
def from_path (bytes : List Nat) : PResult Mp3File :=
  match ID3v2Header.from_read_file ⟨bytes, 0⟩ with
  | .err => .err
  | .panic => .panic
  | .ok (header, read_file) =>
    match parse_frames (bytes.length + 1) read_file with
    | .err => .err
    | .panic => .panic
    | .ok (frames, read_file) => .ok { header, frames, read_file }

/-- `Mp3File::find_index_of_frame_with_id` — the `position` scan with its
mutable `frames_found_counter`, made explicit.  `position` is the running
index, `frames_found_counter` the number of matches skipped so far. -/
def find_index_aux (frame_id : List Nat) (frame_index : Nat) :
    List ID3v2Frame → Nat → Nat → Except Nat Nat
  | [], _, frames_found_counter => .error frames_found_counter
  | item :: rest, position, frames_found_counter =>
    if item.id == frame_id then
      if frames_found_counter < frame_index then
        find_index_aux frame_id frame_index rest (position + 1) (frames_found_counter + 1)
      else .ok position
    else find_index_aux frame_id frame_index rest (position + 1) frames_found_counter

/-- `Mp3File::find_index_of_frame_with_id(frame_id, frame_index)`. -/
def find_index_of_frame_with_id (file : Mp3File) (frame_id : List Nat)
    (frame_index : Nat) : Except Nat Nat :=
  find_index_aux frame_id frame_index file.frames 0 0

/-- `Mp3File::remove_frame`. -/
def remove_frame (file : Mp3File) (frame_id : List Nat) (user_frame_index : Nat) :
    Except Nat Mp3File :=
  (file.find_index_of_frame_with_id frame_id user_frame_index).map fun index =>
    { file with frames := file.frames.eraseIdx index }

/-- `Mp3File::edit_frame`. -/
def edit_frame (file : Mp3File) (frame_id : List Nat) (new_data : List Nat)
    (user_frame_index : Nat) : Except Nat Mp3File :=
  (file.find_index_of_frame_with_id frame_id user_frame_index).map fun index =>
    { file with
        frames := file.frames.modify (fun frame => frame.edit_data new_data) index }

/-- `Mp3File::add_frame`. -/
def add_frame (file : Mp3File) (id data : List Nat) : Mp3File :=
  { file with frames := file.frames ++ [ID3v2Frame.from_user_input id data] }

/-- `Mp3File::calculate_id3v2_size`: 10 for an extended header if present,
plus `10 + frame.size` for each frame. -/
def calculate_id3v2_size (file : Mp3File) : Nat :=
  (if file.header.has_extended_header then 10 else 0) +
    (file.frames.map fun frame => 10 + frame.size).sum

/-- The copy loop at the end of `Mp3File::write_to_file`.  The buffer is
`[0; 16 * (2 ^ 10)]` — `^` is XOR in Rust, so it is 128 bytes, not 16 KiB —
and each iteration `read`s up to 128 bytes into the front of the buffer but
`write`s the whole 128-byte buffer, including stale bytes from earlier
iterations. -/
def copy_loop (remaining buffer : List Nat) : List Nat :=
  if h : remaining = [] then []
  else
    let chunk := remaining.take 128
    let buffer := chunk ++ buffer.drop chunk.length
    buffer ++ copy_loop (remaining.drop 128) buffer
termination_by remaining.length
decreasing_by
  simp [List.length_drop]
  have := List.length_pos.mpr h
  omega

/-- The header+frame region `Mp3File::write_to_file` writes: the header
serialized with the recomputed size, then every frame in order. -/
def tag_region_bytes (file : Mp3File) : List Nat :=
  file.header.write_to_file file.calculate_id3v2_size ++
    file.frames.flatMap ID3v2Frame.write_to_file

/-- `Mp3File::write_to_file`: the full byte stream written to the temporary
file — the tag region followed by the copy loop over the bytes remaining in
the read handle.  (The temp-file create/rename plumbing is outside the
byte-level model.) -/
def write_to_file (file : Mp3File) : List Nat :=
  file.tag_region_bytes ++
    copy_loop (file.read_file.bytes.drop file.read_file.pos) (List.replicate 128 0)

end Mp3File

/-! ## Specification-side definitions (for the lookup refinement claim)

These follow the spec's words for `lookup(id, occurrence)` and are compared
with `Mp3File::find_index_of_frame_with_id` from the source. -/

/-- The number of frames in the list whose id equals `frame_id`. -/
def count_frames_with_id (frames : List ID3v2Frame) (frame_id : List Nat) : Nat :=
  (frames.filter fun frame => frame.id == frame_id).length

/-- The position (in file order) of the `occurrence`-th (0-based) frame
whose id equals `frame_id`, if there are that many matches. -/
def nth_match_index (frame_id : List Nat) : List ID3v2Frame → Nat → Option Nat
  | [], _ => none
  | frame :: rest, occurrence =>
    if frame.id == frame_id then
      if occurrence == 0 then some 0
      else (nth_match_index frame_id rest (occurrence - 1)).map (· + 1)
    else (nth_match_index frame_id rest occurrence).map (· + 1)

/-- The spec's `lookup(id, occurrence)`: the `occurrence`-th match in file
order, or a failure carrying the total number of frames with that id. -/
def spec_lookup (frames : List ID3v2Frame) (frame_id : List Nat)
    (occurrence : Nat) : Except Nat Nat :=
  match nth_match_index frame_id frames occurrence with
  | some index => .ok index
  | none => .error (count_frames_with_id frames frame_id)

/-! ## Observation helpers and concrete inputs for the counterexamples -/

/-- The parsed header version, when `from_path` succeeded. -/
def parsed_version : PResult Mp3File → Option Nat
  | .ok file => some file.header.version
  | _ => none

/-- The parsed header size, when `from_path` succeeded. -/
def parsed_header_size : PResult Mp3File → Option Nat
  | .ok file => some file.header.size
  | _ => none

/-- The parsed frames' sizes, when `from_path` succeeded. -/
def parsed_frame_sizes : PResult Mp3File → Option (List Nat)
  | .ok file => some (file.frames.map fun frame => frame.size)
  | _ => none

/-- The rewritten header+frame region, when `from_path` succeeded. -/
def parsed_tag_region : PResult Mp3File → Option (List Nat)
  | .ok file => some file.tag_region_bytes
  | _ => none

/-- The cursor position after parsing — the first audio byte — when
`from_path` succeeded. -/
def parsed_audio_pos : PResult Mp3File → Option Nat
  | .ok file => some file.read_file.pos
  | _ => none

/-- A minimal well-formed version-4 tag: header (size 11), one `TIT2` frame
of size 1 with the Latin-1 payload `A`, then four audio bytes that fail the
frame-ID test. -/
def c1_tag_bytes : List Nat :=
  [73, 68, 51, 4, 0, 0, 0, 0, 0, 11] ++
    [84, 73, 84, 50, 0, 0, 0, 1, 0, 0, 65] ++ [255, 251, 0, 0]

/-- The `Mp3File` value that parsing `c1_tag_bytes` produces. -/
def c1_parsed : Mp3File where
  header :=
    { flags :=
        { has_extended_header := false
          has_unsynchronization := false
          has_experimental_indicator := false
          raw_flags_byte := 0 }
      size := 11
      version := 4 }
  frames :=
    [{ flags :=
         { tag_alter_preservation := false
           file_alter_preservation := false
           read_only := false
           compression := false
           encryption := false
           grouping_identity := false
           raw_flags_byte := [0, 0] }
       size := 1
       id := [84, 73, 84, 50]
       data := [65]
       encoding := .Latin1 }]
  read_file := ⟨c1_tag_bytes, 21⟩

/-- A version-4 tag whose single frame has size field `00 00 01 00`
(big-endian 256, syncsafe 128) and a 256-byte payload, so that the parse of
the frame succeeds exactly under the big-endian reading. -/
def c3_tag_bytes : List Nat :=
  [73, 68, 51, 4, 0, 0, 0, 0, 2, 10] ++
    [84, 73, 84, 50, 0, 0, 1, 0, 0, 0] ++ List.replicate 256 65 ++ [255, 251, 0, 0]

/-- The frame that parsing `c3_tag_bytes` produces. -/
def c3_frame : ID3v2Frame where
  flags :=
    { tag_alter_preservation := false
      file_alter_preservation := false
      read_only := false
      compression := false
      encryption := false
      grouping_identity := false
      raw_flags_byte := [0, 0] }
  size := 256
  id := [84, 73, 84, 50]
  data := List.replicate 256 65
  encoding := .Latin1

/-- A file that is exactly a valid 10-byte tag header with nothing after
it: the frame loop's 4-byte peek hits end-of-file. -/
def c9_header_only_bytes : List Nat := [73, 68, 51, 4, 0, 0, 0, 0, 0, 0]

/-! ## Bit-manipulation helper lemmas -/

lemma and_shiftLeft_shiftRight (x m k : Nat) :
    (x &&& (m <<< k)) >>> k = (x >>> k) &&& m := by
  apply Nat.eq_of_testBit_eq
  intro i
  simp [Nat.testBit_shiftRight, Nat.testBit_land, Nat.testBit_shiftLeft,
    Nat.le_add_right, Nat.add_sub_cancel_left]

lemma shiftLeft_shiftRight_le (x s k : Nat) (h : s ≤ k) :
    (x <<< s) >>> k = x >>> (k - s) := by
  obtain ⟨t, rfl⟩ : ∃ t, k = s + t := ⟨k - s, by omega⟩
  rw [Nat.add_sub_cancel_left, Nat.shiftLeft_eq, Nat.shiftRight_eq_div_pow,
    Nat.shiftRight_eq_div_pow, pow_add, Nat.mul_comm x (2 ^ s),
    Nat.mul_div_mul_left _ _ (Nat.two_pow_pos s)]

lemma u8_eq_of_lt {x : Nat} (h : x < 2 ^ 8) : u8 x = x :=
  Nat.mod_eq_of_lt h

/-- One byte of `write_syncsafe_integer` in shift-and-mod normal form. -/
lemma shift_mask_byte (x s k : Nat) (hsk : s ≤ k) (hx : x <<< s < 2 ^ 32) :
    u8 ((u32 (x <<< s) &&& (127 <<< k)) >>> k) = (x >>> (k - s)) % 2 ^ 7 := by
  rw [u32, Nat.mod_eq_of_lt hx, and_shiftLeft_shiftRight, shiftLeft_shiftRight_le x s k hsk,
    show (127 : Nat) = 2 ^ 7 - 1 by norm_num, Nat.and_pow_two_sub_one_eq_mod]
  exact u8_eq_of_lt (lt_trans (Nat.mod_lt _ (by norm_num)) (by norm_num))

/-- `write_syncsafe_integer` produces the four 7-bit digits of its input
(whenever the input fits in a `u32` after the worst shift). -/
lemma write_syncsafe_digits (v : Nat) (h : v < 2 ^ 28) :
    write_syncsafe_integer v =
      [(v >>> 21) % 2 ^ 7, (v >>> 14) % 2 ^ 7, (v >>> 7) % 2 ^ 7, v % 2 ^ 7] := by
  have h3 : v <<< 3 < 2 ^ 32 := by rw [Nat.shiftLeft_eq]; norm_num; omega
  have h2 : v <<< 2 < 2 ^ 32 := by rw [Nat.shiftLeft_eq]; norm_num; omega
  have h1 : v <<< 1 < 2 ^ 32 := by rw [Nat.shiftLeft_eq]; norm_num; omega
  have h0 : v <<< 0 < 2 ^ 32 := by rw [Nat.shiftLeft_eq]; norm_num; omega
  have e3 := shift_mask_byte v 3 24 (by norm_num) h3
  have e2 := shift_mask_byte v 2 16 (by norm_num) h2
  have e1 := shift_mask_byte v 1 8 (by norm_num) h1
  have e0 := shift_mask_byte v 0 0 (by norm_num) h0
  rw [show (127 : Nat) <<< 24 = 0b01111111000000000000000000000000 by norm_num [Nat.shiftLeft_eq]] at e3
  rw [show (127 : Nat) <<< 16 = 0b00000000011111110000000000000000 by norm_num [Nat.shiftLeft_eq]] at e2
  rw [show (127 : Nat) <<< 8 = 0b00000000000000000111111100000000 by norm_num [Nat.shiftLeft_eq]] at e1
  rw [show (127 : Nat) <<< 0 = 0b00000000000000000000000001111111 by norm_num [Nat.shiftLeft_eq]] at e0
  simp only [show (24 : Nat) - 3 = 21 from rfl, show (16 : Nat) - 2 = 14 from rfl,
    show (8 : Nat) - 1 = 7 from rfl, Nat.sub_self, Nat.shiftRight_zero] at e3 e2 e1 e0
  simp only [write_syncsafe_integer, Nat.shiftRight_zero, e3, e2, e1, e0]

/-- Reassembling the four 7-bit digits of a value below `2 ^ 28` with
bitwise or recovers the value. -/
lemma read_digits (v : Nat) (h : v < 2 ^ 28) :
    v % 2 ^ 7 ||| (((v >>> 7) % 2 ^ 7) <<< 7) ||| (((v >>> 14) % 2 ^ 7) <<< 14) |||
      (((v >>> 21) % 2 ^ 7) <<< 21) = v := by
  apply Nat.eq_of_testBit_eq
  intro i
  simp only [Nat.testBit_lor, Nat.testBit_shiftLeft, Nat.testBit_mod_two_pow,
    Nat.testBit_shiftRight, ge_iff_le]
  by_cases h7 : i < 7
  · simp [h7, show ¬ (7 ≤ i) by omega, show ¬ (14 ≤ i) by omega,
      show ¬ (21 ≤ i) by omega]
  · by_cases h14 : i < 14
    · rw [show 7 + (i - 7) = i by omega]
      simp [h7, h14, show 7 ≤ i by omega, show i - 7 < 7 by omega,
        show ¬ (14 ≤ i) by omega, show ¬ (21 ≤ i) by omega]
    · by_cases h21 : i < 21
      · rw [show 14 + (i - 14) = i by omega]
        simp [h7, h14, h21, show 7 ≤ i by omega, show 14 ≤ i by omega,
          show ¬ (i - 7 < 7) by omega, show i - 14 < 7 by omega,
          show ¬ (21 ≤ i) by omega]
      · by_cases h28 : i < 28
        · rw [show 21 + (i - 21) = i by omega]
          simp [h7, h14, h21, h28, show 7 ≤ i by omega, show 14 ≤ i by omega,
            show 21 ≤ i by omega, show ¬ (i - 7 < 7) by omega,
            show ¬ (i - 14 < 7) by omega, show i - 21 < 7 by omega]
        · have hbit : v.testBit i = false :=
            Nat.testBit_lt_two_pow (lt_of_lt_of_le h (Nat.pow_le_pow_right (by norm_num) (by omega)))
          simp [h7, h14, h21, hbit, show ¬ (i - 7 < 7) by omega,
            show ¬ (i - 14 < 7) by omega, show ¬ (i - 21 < 7) by omega]

/-! ## Claim C7 -/

/-- Claim C7: for every `u32` value `v` with `v < 2 ^ 28`,
`read_syncsafe_integer (write_syncsafe_integer v) = v`. -/
theorem syncsafe_roundtrip (v : Nat) (h : v < 2 ^ 28) :
    read_syncsafe_integer (write_syncsafe_integer v) = v := by
  rw [write_syncsafe_digits v h]
  simpa [read_syncsafe_integer] using read_digits v h

/-- Witness for C7 at `v = 12345678`. -/
theorem syncsafe_roundtrip_witness :
    12345678 < 2 ^ 28 ∧
      read_syncsafe_integer (write_syncsafe_integer 12345678) = 12345678 :=
  ⟨by norm_num, syncsafe_roundtrip 12345678 (by norm_num)⟩

/-! ## Claim C10 -/

lemma and_shiftRight_le (x m k : Nat) : (x &&& m) >>> k ≤ m >>> k := by
  simp only [Nat.shiftRight_eq_div_pow]
  exact Nat.div_le_div_right Nat.and_le_right

lemma syncsafe_byte_lt (x m k : Nat) (hm : m >>> k < 2 ^ 7) :
    u8 ((x &&& m) >>> k) < 2 ^ 7 :=
  lt_of_le_of_lt (le_trans (Nat.mod_le _ _) (and_shiftRight_le x m k)) hm

/-- Claim C10: every byte produced by `write_syncsafe_integer` has a clear
most-significant bit, for every input value, so
`is_valid_syncsafe_integer (write_syncsafe_integer v)` always holds. -/
theorem write_syncsafe_always_valid (v : Nat) :
    is_valid_syncsafe_integer (write_syncsafe_integer v) = true := by
  have b0 := syncsafe_byte_lt (u32 (v <<< 3)) 0b01111111000000000000000000000000 24 (by decide)
  have b1 := syncsafe_byte_lt (u32 (v <<< 2)) 0b00000000011111110000000000000000 16 (by decide)
  have b2 := syncsafe_byte_lt (u32 (v <<< 1)) 0b00000000000000000111111100000000 8 (by decide)
  have b3 := syncsafe_byte_lt (u32 (v <<< 0)) 0b00000000000000000000000001111111 0 (by decide)
  have hor : (u8 ((u32 (v <<< 3) &&& 0b01111111000000000000000000000000) >>> 24) |||
      u8 ((u32 (v <<< 2) &&& 0b00000000011111110000000000000000) >>> 16) |||
      u8 ((u32 (v <<< 1) &&& 0b00000000000000000111111100000000) >>> 8) |||
      u8 ((u32 (v <<< 0) &&& 0b00000000000000000000000001111111) >>> 0)) < 2 ^ 7 :=
    Nat.or_lt_two_pow (Nat.or_lt_two_pow (Nat.or_lt_two_pow b0 b1) b2) b3
  have hval : is_valid_syncsafe_integer (write_syncsafe_integer v) =
      ((u8 ((u32 (v <<< 3) &&& 0b01111111000000000000000000000000) >>> 24) |||
        u8 ((u32 (v <<< 2) &&& 0b00000000011111110000000000000000) >>> 16) |||
        u8 ((u32 (v <<< 1) &&& 0b00000000000000000111111100000000) >>> 8) |||
        u8 ((u32 (v <<< 0) &&& 0b00000000000000000000000001111111) >>> 0)) >>> 7 == 0) := rfl
  rw [hval, Nat.shiftRight_eq_div_pow, Nat.div_eq_of_lt hor]
  rfl

/-! ## Claim C4 -/

/-- Claim C4 fails on the code: `write_be_integer` keeps the syncsafe
shifts, so decoding its output with `read_be_integer` does not return the
input; at 256 the round trip yields 512. -/
theorem write_be_integer_wrong_at_256 :
    write_be_integer 256 = [0, 0, 2, 0] ∧
      read_be_integer (write_be_integer 256) = 512 ∧ (512 : Nat) ≠ 256 := by
  refine ⟨by decide, by decide, by decide⟩

/-! ## Claim C6 -/

/-- Claim C6 fails on the code: 0xBA lies in the claimed byte set, decoding
it succeeds but yields U+00BB (a duplicated `DECODE_TABLE` entry), so
re-encoding gives 0xBB, not the original buffer. -/
theorem latin1_roundtrip_fails_at_0xBA :
    decode [0xBA] = some [0xBB] ∧ encode [0xBB] = some [0xBB] ∧
      ([0xBB] : List Nat) ≠ [0xBA] := by
  refine ⟨by decide, by decide, by decide⟩

/-! ## Claim C2 -/

/-- Claim C2 fails on the code: the copy loop writes the whole 128-byte
buffer on every iteration, so a 1-byte audio tail is written as 128 bytes
(the byte followed by 127 bytes of buffer filler), not copied verbatim. -/
theorem copy_loop_pads_short_tail :
    Mp3File.copy_loop [1] (List.replicate 128 0) = 1 :: List.replicate 127 0 ∧
      (Mp3File.copy_loop [1] (List.replicate 128 0)).length = 128 ∧
      Mp3File.copy_loop [1] (List.replicate 128 0) ≠ [1] := by
  have h1 : Mp3File.copy_loop [1] (List.replicate 128 0) = 1 :: List.replicate 127 0 := by
    rw [Mp3File.copy_loop]
    norm_num [List.replicate_succ]
    rw [Mp3File.copy_loop]
    simp
  refine ⟨h1, by rw [h1]; simp, by rw [h1]; simp⟩

/-! ## Claim C5 -/

/-- Normal form of the bytes `ID3v2Frame::write_to_file` emits. -/
lemma write_frame_eq (frame : ID3v2Frame) :
    frame.write_to_file =
      (frame.id.take 4).map u8 ++ write_be_integer frame.size ++
        frame.flags.raw_flags_byte ++
        ([0x00, 0x00, 0xFF, 0xFE] ++ utf16_be_bytes frame.data ++ [0x00, 0x00]) := by
  simp [ID3v2Frame.write_to_file, List.insertIdx_zero, List.concat_eq_append,
    List.append_assoc]

/-- Claim C5: whatever the frame's detected or original `encoding`,
serialization writes the payload as the leading `0x0000` marker, the
two-byte BOM `0xFF 0xFE`, the UTF-16 big-endian bytes of the frame's data,
and a trailing `0x0000` terminator. -/
theorem write_normalizes_payload_to_utf16 (frame : ID3v2Frame) (e : Encoding) :
    ID3v2Frame.write_to_file { frame with encoding := e } =
      (frame.id.take 4).map u8 ++ write_be_integer frame.size ++
        frame.flags.raw_flags_byte ++
        ([0x00, 0x00, 0xFF, 0xFE] ++ utf16_be_bytes frame.data ++ [0x00, 0x00]) :=
  write_frame_eq _

/-! ## Claim C8 -/

/-- The `position` scan with counter state `c` and index offset `i` agrees
with the spec-side lookup on the remaining frames, shifted accordingly. -/
lemma find_index_aux_eq (frame_id : List Nat) (k : Nat) (frames : List ID3v2Frame) :
    ∀ i c, c ≤ k →
      Mp3File.find_index_aux frame_id k frames i c =
        (match nth_match_index frame_id frames (k - c) with
         | some j => Except.ok (i + j)
         | none => Except.error (c + count_frames_with_id frames frame_id)) := by
  induction frames with
  | nil =>
    intro i c hc
    simp [Mp3File.find_index_aux, nth_match_index, count_frames_with_id]
  | cons frame rest ih =>
    intro i c hc
    by_cases hid : (frame.id == frame_id) = true
    · by_cases hck : c < k
      · have hkc0 : (k - c == 0) = false := by
          simp only [beq_eq_false_iff_ne, ne_eq]
          omega
        have hsub : k - c - 1 = k - (c + 1) := by omega
        simp only [Mp3File.find_index_aux, if_pos hid, if_pos hck, ih (i + 1) (c + 1) (by omega)]
        simp only [nth_match_index, hid, if_true, hkc0, Bool.false_eq_true, if_false, hsub,
          count_frames_with_id, List.filter_cons, List.length_cons]
        cases hn : nth_match_index frame_id rest (k - (c + 1)) <;>
          simp [hn, count_frames_with_id] <;> omega
      · have hkc0 : (k - c == 0) = true := by
          simp only [beq_iff_eq]
          omega
        simp only [Mp3File.find_index_aux, if_pos hid, if_neg hck]
        simp [nth_match_index, hid, hkc0]
    · simp only [Mp3File.find_index_aux, if_neg hid, ih (i + 1) c hc]
      simp only [nth_match_index, hid, Bool.false_eq_true, if_false,
        count_frames_with_id, List.filter_cons]
      cases hn : nth_match_index frame_id rest (k - c) <;>
        simp [hn, hid, count_frames_with_id] <;> omega

/-- Claim C8: `find_index_of_frame_with_id` returns the index of the
`frame_index`-th frame (0-based, in file order) whose id matches, and when
fewer than `frame_index + 1` such frames exist it fails carrying the total
number of frames with that id. -/
theorem find_index_matches_spec (file : Mp3File) (frame_id : List Nat)
    (frame_index : Nat) :
    file.find_index_of_frame_with_id frame_id frame_index =
      spec_lookup file.frames frame_id frame_index := by
  unfold Mp3File.find_index_of_frame_with_id spec_lookup
  rw [find_index_aux_eq frame_id frame_index file.frames 0 0 (Nat.zero_le _)]
  simp only [Nat.sub_zero]
  cases hn : nth_match_index frame_id file.frames frame_index <;> simp [hn]

/-! ## List-slicing and UTF-8 helper lemmas -/

lemma slice_of_slice (l : List Nat) (p n a b : Nat) (h : a + b ≤ n) :
    (((l.drop p).take n).drop a).take b = (l.drop (p + a)).take b := by
  rw [List.drop_take, List.take_take, List.drop_drop, Nat.min_eq_left (by omega)]

lemma utf8_decode_cons_ascii (b : Nat) (rest : List Nat) (hb : b < 0x80) :
    utf8_decode (b :: rest) = (utf8_decode rest).map (b :: ·) := by
  simp [utf8_decode, utf8_aux, hb]

lemma utf8_decode_ascii (l : List Nat) (h : ∀ b ∈ l, b < 0x80) :
    utf8_decode l = some l := by
  induction l with
  | nil => rfl
  | cons b rest ih =>
    rw [utf8_decode_cons_ascii b rest (h b (by simp)), ih fun x hx => h x (by simp [hx])]
    rfl

/-- Four bytes that pass the frame-ID character test are ASCII, hence valid
UTF-8 decoding to themselves. -/
lemma valid_header_utf8 (l : List Nat) (hlen : l.length = 4)
    (h : ID3v2Frame.is_valid_frame_header l = true) :
    utf8_decode l = some l := by
  rcases l with _ | ⟨b0, _ | ⟨b1, _ | ⟨b2, _ | ⟨b3, rest⟩⟩⟩⟩ <;> simp at hlen
  subst hlen
  have h' : (((65 ≤ b0 && b0 ≤ 90) || (48 ≤ b0 && b0 ≤ 57))
      && ((65 ≤ b1 && b1 ≤ 90) || (48 ≤ b1 && b1 ≤ 57))
      && ((65 ≤ b2 && b2 ≤ 90) || (48 ≤ b2 && b2 ≤ 57))
      && ((65 ≤ b3 && b3 ≤ 90) || (48 ≤ b3 && b3 ≤ 57))) = true := h
  simp only [Bool.and_eq_true, Bool.or_eq_true, decide_eq_true_eq] at h'
  apply utf8_decode_ascii
  intro b hb
  simp only [List.mem_cons, List.not_mem_nil, or_false] at hb
  rcases hb with rfl | rfl | rfl | rfl <;> omega

/-! ## Claim C1 -/

lemma flatMap_write_eq (frames : List ID3v2Frame) :
    frames.flatMap ID3v2Frame.write_to_file =
      frames.flatMap (fun frame =>
        (frame.id.take 4).map u8 ++ write_be_integer frame.size ++
          frame.flags.raw_flags_byte ++
          ([0x00, 0x00, 0xFF, 0xFE] ++ utf16_be_bytes frame.data ++ [0x00, 0x00])) := by
  induction frames with
  | nil => rfl
  | cons frame rest ih => simp [List.flatMap_cons, ih, write_frame_eq]

/-- Claim C1 (amended): saving an unedited parsed tag writes the header with
the recomputed syncsafe size and then, for each frame in order, its id bytes
and raw flag bytes verbatim, its size re-encoded with `write_be_integer`,
and its payload re-encoded as `0x0000`, the `0xFF 0xFE` BOM, the UTF-16
big-endian text and a `0x0000` terminator — so frame count, ids and flag
bytes are preserved, but the byte region is not identical to the input in
general. -/
theorem save_after_parse_rewrites_tag (bytes : List Nat) (file : Mp3File)
    (h : Mp3File.from_path bytes = .ok file) :
    file.tag_region_bytes =
      file.header.write_to_file file.calculate_id3v2_size ++
        file.frames.flatMap (fun frame =>
          (frame.id.take 4).map u8 ++ write_be_integer frame.size ++
            frame.flags.raw_flags_byte ++
            ([0x00, 0x00, 0xFF, 0xFE] ++ utf16_be_bytes frame.data ++ [0x00, 0x00])) := by
  unfold Mp3File.tag_region_bytes
  rw [flatMap_write_eq]

set_option maxRecDepth 100000 in
/-- Witness for the amended C1 at the concrete tag `c1_tag_bytes`. -/
theorem save_after_parse_rewrites_tag_witness :
    Mp3File.from_path c1_tag_bytes = .ok c1_parsed ∧
      c1_parsed.tag_region_bytes =
        c1_parsed.header.write_to_file c1_parsed.calculate_id3v2_size ++
          c1_parsed.frames.flatMap (fun frame =>
            (frame.id.take 4).map u8 ++ write_be_integer frame.size ++
              frame.flags.raw_flags_byte ++
              ([0x00, 0x00, 0xFF, 0xFE] ++ utf16_be_bytes frame.data ++ [0x00, 0x00])) :=
  ⟨by decide, save_after_parse_rewrites_tag c1_tag_bytes c1_parsed (by decide)⟩

set_option maxRecDepth 100000 in
/-- Claim C1 as stated fails on the code: parsing `c1_tag_bytes` (a
well-formed version-4 tag whose single frame's size field reads the same
under either convention) and saving with no edits does not reproduce the
input's 21-byte header+frame region — the Latin-1 payload `A` is rewritten
as the 8-byte normalized UTF-16 payload. -/
theorem roundtrip_not_byte_identical :
    parsed_audio_pos (Mp3File.from_path c1_tag_bytes) = some 21 ∧
      parsed_tag_region (Mp3File.from_path c1_tag_bytes) =
        some ([73, 68, 51, 4, 0, 0, 0, 0, 0, 11] ++
          [84, 73, 84, 50, 0, 0, 0, 1, 0, 0] ++ [0, 0, 0xFF, 0xFE, 0, 65, 0, 0]) ∧
      parsed_tag_region (Mp3File.from_path c1_tag_bytes) ≠
        some (c1_tag_bytes.take 21) := by
  refine ⟨by decide, by decide, by decide⟩

/-! ## Claim C3 -/

/-- A successfully parsed frame's size is the plain big-endian reading of
the four size-field bytes. -/
lemma parsed_frame_size_is_be (file : ReadFile) (frame : ID3v2Frame)
    (rest : ReadFile) (h : ID3v2Frame.from_read_file file = .ok (frame, rest)) :
    frame.size = read_be_integer ((file.bytes.drop (file.pos + 4)).take 4) := by
  unfold ID3v2Frame.from_read_file at h
  cases hre : readExact file 10 with
  | none => rw [hre] at h; exact absurd h (by simp)
  | some pair =>
    obtain ⟨buffer, file1⟩ := pair
    have hbuf : buffer = (file.bytes.drop file.pos).take 10 := by
      unfold readExact at hre
      split at hre
      · injection hre with hpair
        injection hpair with hb hf
        exact hb.symm
      · exact absurd hre (by simp)
    rw [hre] at h
    simp only at h
    cases hid : utf8_decode (buffer.take 4) with
    | none => rw [hid] at h; exact absurd h (by simp)
    | some id =>
      rw [hid] at h
      simp only at h
      cases hrd : readExact file1 (read_be_integer ((buffer.drop 4).take 4)) with
      | none => rw [hrd] at h; exact absurd h (by simp)
      | some pair2 =>
        rw [hrd] at h
        simp only [PResult.ok.injEq, Prod.mk.injEq] at h
        obtain ⟨hfr, -⟩ := h
        subst hfr
        show read_be_integer ((buffer.drop 4).take 4) =
          read_be_integer ((file.bytes.drop (file.pos + 4)).take 4)
        rw [hbuf, slice_of_slice file.bytes file.pos 10 4 4 (by norm_num)]

/-- A successfully parsed header's size is the syncsafe reading of the four
size bytes at offsets 6-9. -/
lemma parsed_header_size_is_syncsafe (file : ReadFile) (header : ID3v2Header)
    (rest : ReadFile) (h : ID3v2Header.from_read_file file = .ok (header, rest)) :
    header.size = read_syncsafe_integer ((file.bytes.drop (file.pos + 6)).take 4) := by
  unfold ID3v2Header.from_read_file at h
  cases hre : readExact file 10 with
  | none => rw [hre] at h; exact absurd h (by simp)
  | some pair =>
    obtain ⟨buffer, file1⟩ := pair
    have hbuf : buffer = (file.bytes.drop file.pos).take 10 := by
      unfold readExact at hre
      split at hre
      · injection hre with hpair
        injection hpair with hb hf
        exact hb.symm
      · exact absurd hre (by simp)
    rw [hre] at h
    simp only at h
    split at h
    · exact absurd h (by simp)
    · split at h
      · cases hext : readExact file1 4 with
        | none => rw [hext] at h; exact absurd h (by simp)
        | some pair2 =>
          rw [hext] at h
          simp only [PResult.ok.injEq, Prod.mk.injEq] at h
          obtain ⟨hhd, -⟩ := h
          subst hhd
          show read_syncsafe_integer ((buffer.drop 6).take 4) =
            read_syncsafe_integer ((file.bytes.drop (file.pos + 6)).take 4)
          rw [hbuf, slice_of_slice file.bytes file.pos 10 6 4 (by norm_num)]
      · simp only [PResult.ok.injEq, Prod.mk.injEq] at h
        obtain ⟨hhd, -⟩ := h
        subst hhd
        show read_syncsafe_integer ((buffer.drop 6).take 4) =
          read_syncsafe_integer ((file.bytes.drop (file.pos + 6)).take 4)
        rw [hbuf, slice_of_slice file.bytes file.pos 10 6 4 (by norm_num)]

/-- Claim C3 (amended): the 4-byte frame size field is decoded with the
plain big-endian convention for every tag version (including 4, where the
documented default is syncsafe), is re-encoded with `write_be_integer` on
write, while the tag header's own size field is decoded with the syncsafe
convention — one tag's parse mixes the two conventions. -/
theorem size_field_conventions :
    (∀ (file : ReadFile) (frame : ID3v2Frame) (rest : ReadFile),
        ID3v2Frame.from_read_file file = .ok (frame, rest) →
          frame.size = read_be_integer ((file.bytes.drop (file.pos + 4)).take 4)) ∧
    (∀ frame : ID3v2Frame,
        frame.write_to_file =
          (frame.id.take 4).map u8 ++ write_be_integer frame.size ++
            frame.flags.raw_flags_byte ++
            ([0x00, 0x00, 0xFF, 0xFE] ++ utf16_be_bytes frame.data ++ [0x00, 0x00])) ∧
    (∀ (file : ReadFile) (header : ID3v2Header) (rest : ReadFile),
        ID3v2Header.from_read_file file = .ok (header, rest) →
          header.size = read_syncsafe_integer ((file.bytes.drop (file.pos + 6)).take 4)) :=
  ⟨parsed_frame_size_is_be, write_frame_eq, parsed_header_size_is_syncsafe⟩

set_option maxRecDepth 100000 in
/-- Witness for the amended C3 at the frame record of `c3_tag_bytes`. -/
theorem size_field_conventions_witness :
    c3_frame.size = read_be_integer ((c3_tag_bytes.drop 14).take 4) :=
  size_field_conventions.1 ⟨c3_tag_bytes, 10⟩ c3_frame ⟨c3_tag_bytes, 276⟩ (by decide)

set_option maxRecDepth 100000 in
/-- Claim C3 as stated fails on the code: `c3_tag_bytes` has header version
4 and a frame whose size field bytes are `00 00 01 00`; the parse decodes
the frame size as 256 (big-endian), not the syncsafe value 128, while the
same parse decodes the header's size field with the syncsafe convention. -/
theorem v4_frame_size_not_syncsafe :
    parsed_version (Mp3File.from_path c3_tag_bytes) = some 4 ∧
      parsed_frame_sizes (Mp3File.from_path c3_tag_bytes) = some [256] ∧
      read_syncsafe_integer [0, 0, 1, 0] = 128 ∧ (256 : Nat) ≠ 128 ∧
      parsed_header_size (Mp3File.from_path c3_tag_bytes) =
        some (read_syncsafe_integer [0, 0, 2, 10]) := by
  refine ⟨by decide, by decide, by decide, by decide, by decide⟩

/-! ## Claim C9 -/

/-- Claim C9 (amended): at any state of the frame loop, a short read during
the 10-byte frame header read or the payload read makes the loop — and
`from_path` — return the error result, while a short read during the 4-byte
peek aborts the process (a panic, not an error return); no partial tag is
returned in either case. -/
theorem short_read_aborts (f : ReadFile) (fuel : Nat) :
    (f.bytes.length < f.pos + 4 → parse_frames (fuel + 1) f = .panic) ∧
    (ID3v2Frame.has_new_frame f = .ok true → f.bytes.length < f.pos + 10 →
      parse_frames (fuel + 1) f = .err) ∧
    (ID3v2Frame.has_new_frame f = .ok true → f.pos + 10 ≤ f.bytes.length →
      f.bytes.length < f.pos + 10 + read_be_integer ((f.bytes.drop (f.pos + 4)).take 4) →
      parse_frames (fuel + 1) f = .err) ∧
    (∀ (bytes : List Nat) (header : ID3v2Header) (rest : ReadFile),
      ID3v2Header.from_read_file ⟨bytes, 0⟩ = .ok (header, rest) →
        (parse_frames (bytes.length + 1) rest = .err → Mp3File.from_path bytes = .err) ∧
        (parse_frames (bytes.length + 1) rest = .panic →
          Mp3File.from_path bytes = .panic)) := by
  refine ⟨?_, ?_, ?_, ?_⟩
  · intro hlt
    have h4 : readExact f 4 = none := by
      simp only [readExact, ite_eq_right_iff]
      omega
    simp [parse_frames, ID3v2Frame.has_new_frame, h4]
  · intro hnf hlt
    have h10 : readExact f 10 = none := by
      simp only [readExact, ite_eq_right_iff]
      omega
    simp [parse_frames, hnf, ID3v2Frame.from_read_file, h10]
  · intro hnf h10 hsz
    have hre4 : readExact f 4 =
        some ((f.bytes.drop f.pos).take 4, ⟨f.bytes, f.pos + 4⟩) := by
      simp only [readExact, if_pos (show f.pos + 4 ≤ f.bytes.length by omega)]
    have hvalid : ID3v2Frame.is_valid_frame_header ((f.bytes.drop f.pos).take 4) = true := by
      have hnf' := hnf
      unfold ID3v2Frame.has_new_frame at hnf'
      rw [hre4] at hnf'
      simpa using hnf'
    have hlen4 : ((f.bytes.drop f.pos).take 4).length = 4 := by
      simp only [List.length_take, List.length_drop]
      omega
    have hre10 : readExact f 10 =
        some ((f.bytes.drop f.pos).take 10, ⟨f.bytes, f.pos + 10⟩) := by
      simp only [readExact, if_pos h10]
    have htt : ((f.bytes.drop f.pos).take 10).take 4 = (f.bytes.drop f.pos).take 4 := by
      rw [List.take_take, Nat.min_eq_left (by norm_num)]
    have hutf : utf8_decode (((f.bytes.drop f.pos).take 10).take 4) =
        some ((f.bytes.drop f.pos).take 4) := by
      rw [htt]
      exact valid_header_utf8 _ hlen4 hvalid
    have hszbytes : (((f.bytes.drop f.pos).take 10).drop 4).take 4 =
        (f.bytes.drop (f.pos + 4)).take 4 :=
      slice_of_slice f.bytes f.pos 10 4 4 (by norm_num)
    have hpay : readExact (⟨f.bytes, f.pos + 10⟩ : ReadFile)
        (read_be_integer ((((f.bytes.drop f.pos).take 10).drop 4).take 4)) = none := by
      rw [hszbytes]
      simp only [readExact, ite_eq_right_iff]
      omega
    simp [parse_frames, hnf, ID3v2Frame.from_read_file, hre10, hutf, hpay]
  · intro bytes header rest hh
    constructor <;> intro hp <;> simp [Mp3File.from_path, hh, hp]

/-- Witness for the amended C9: the loop state just after the header of
`c9_header_only_bytes`, where the peek's short read panics. -/
theorem short_read_aborts_witness :
    parse_frames 1 ⟨c9_header_only_bytes, 10⟩ = .panic :=
  (short_read_aborts ⟨c9_header_only_bytes, 10⟩ 0).1 (by decide)

set_option maxRecDepth 100000 in
/-- Claim C9 as stated fails on the code: on a file that ends right after
its tag header, the frame loop's 4-byte peek hits a short read and
`from_path` panics (the `expect` aborts the process) instead of propagating
a fatal error result. -/
theorem peek_short_read_panics :
    Mp3File.from_path c9_header_only_bytes = .panic ∧
      (PResult.panic ≠ (PResult.err : PResult Mp3File)) := by
  refine ⟨by decide, by decide⟩

end Id3Tool
